import Mathlib

/-!
Shallow embedding of the ReplayBot plugin
(src/addons/source-python/plugins/replay_bot/replay_bot.py).

Conventions of the embedding:
- Host-engine values (vectors, bot commands) are modelled over the rationals
  and opaque identifiers; only the fields the logic reads are kept.
- Python object identity is modelled by an identity token field (sid / rid);
  distinct Python objects carry distinct tokens.
- Python exceptions are modelled by Except PyErr; a raise that happens before
  a mutation leaves the unmodified state visible to the caller.
- Mutation of objects held in the manager registries is modelled by explicit
  state passing: each operation returns the updated object or registry.
-/

namespace ReplayBot

/-- Engine 3-vector (Vector / QAngle), over the rationals. -/
structure Vec3 where
  x : ℚ
  y : ℚ
  z : ℚ
deriving DecidableEq

/-- Vector.get_distance_sqr from the engine: squared euclidean distance. -/
def Vec3.get_distance_sqr (a b : Vec3) : ℚ :=
  (a.x - b.x) ^ 2 + (a.y - b.y) ^ 2 + (a.z - b.z) ^ 2

/-- Snapshot: per-tick capture of origin, angle, velocity and the bot command.
sid is the Python object identity token (Snapshot defines no eq, so Python
compares snapshots by identity). The bot command is kept opaque. -/
structure Snapshot where
  sid : Nat
  origin : Vec3
  angle : Vec3
  velocity : Vec3
  bcmd : Nat
deriving DecidableEq

/-- PlayerData: name, steamid and team captured at recording start. -/
structure PlayerData where
  name : String
  steamid : String
  team : Int
deriving DecidableEq

/-- Recording: subclass of list in the source, so the snapshot sequence is the
list payload itself and the remaining fields are the metadata set in init.
rid is the Python object identity token. -/
structure Recording where
  rid : Nat
  creation_time : ℚ
  game : String
  map_name : String
  tick_interval : ℚ
  player : PlayerData
  snapshots : List Snapshot
deriving DecidableEq

/-- Globals read by Recording.init (time.time, SOURCE_ENGINE_BRANCH,
global_vars.map_name, server.tick_interval) plus a fresh identity token. -/
structure WorldEnv where
  now : ℚ
  game : String
  map_name : String
  tick_interval : ℚ
  fresh_rid : Nat
deriving DecidableEq

/-- Recording(player): a new empty recording with the metadata of init. -/
def Recording.init (env : WorldEnv) (pd : PlayerData) : Recording :=
  ⟨env.fresh_rid, env.now, env.game, env.map_name, env.tick_interval, pd, []⟩

/-- Recording.is_playable: len(self) > 0. -/
def Recording.is_playable (r : Recording) : Bool :=
  decide (0 < r.snapshots.length)

/-- Recording.duration: len(self) * self.tick_interval. -/
def Recording.duration (r : Recording) : ℚ :=
  r.snapshots.length * r.tick_interval

/-- Recording.add_snapshot: append one snapshot (the snapshot itself is built
from the live player by create_snapshot; here it arrives as a value). -/
def Recording.add_snapshot (r : Recording) (s : Snapshot) : Recording :=
  { r with snapshots := r.snapshots ++ [s] }

/-- Python exceptions surfaced by the plugin code. -/
inductive PyErr where
  | typeError
  | valueError (msg : String)
  | indexError
  | attributeError
deriving DecidableEq

/-- Decidable equality for Except results, used to evaluate the model on
concrete inputs. -/
instance {ε α : Type} [DecidableEq ε] [DecidableEq α] :
    DecidableEq (Except ε α) := fun a b =>
  match a, b with
  | Except.ok x, Except.ok y =>
    if h : x = y then isTrue (by rw [h])
    else isFalse (by intro hh; injection hh; contradiction)
  | Except.ok _, Except.error _ => isFalse (fun h => Except.noConfusion h)
  | Except.error _, Except.ok _ => isFalse (fun h => Except.noConfusion h)
  | Except.error e, Except.error f =>
    if h : e = f then isTrue (by rw [h])
    else isFalse (by intro hh; injection hh; contradiction)

/-- A Python value as it appears as an operand of the subtraction in
remaining_time: either a number, or a bound method object (an attribute
access on a plain method without the call parentheses). -/
inductive PyVal where
  | num (q : ℚ)
  | boundMethod
deriving DecidableEq

/-- Python binary subtraction: number minus number yields a number; a number
minus a bound method raises TypeError. -/
def pySub (a b : PyVal) : Except PyErr ℚ :=
  match a, b with
  | PyVal.num q, PyVal.num w => Except.ok (q - w)
  | _, _ => Except.error PyErr.typeError

/-- Python list indexing: nonnegative indices below the length index from the
front, negative indices from minus the length index from the back, anything
else raises IndexError. -/
def pyGet {α : Type} (l : List α) (i : ℤ) : Except PyErr α :=
  if h : 0 ≤ i ∧ i < (l.length : ℤ) then
    Except.ok (l.get ⟨i.toNat, by omega⟩)
  else if h2 : 0 ≤ i + (l.length : ℤ) ∧ i < 0 then
    Except.ok (l.get ⟨(i + (l.length : ℤ)).toNat, by omega⟩)
  else
    Except.error PyErr.indexError

/-- PlayerState enum. -/
inductive PlayerState where
  | paused
  | playing
  | stopped
deriving DecidableEq

/-- Player: replays one recording through one replay bot. The controller and
the replay bot are opaque host handles; replay_bot doubles as the bot index
used as the registry key. tick is a Python int, hence an integer. -/
structure Player where
  tick : ℤ
  recording : Recording
  state : PlayerState
  controller : Nat
  replay_bot : Nat
  adjust : Bool
deriving DecidableEq

/-- Player init: tick 0, paused. -/
def Player.init (recording : Recording) (controller replay_bot : Nat)
    (adjust : Bool) : Player :=
  ⟨0, recording, PlayerState.paused, controller, replay_bot, adjust⟩

/-- Side effects a Player or the manager requests from the host engine. -/
inductive Effect where
  | replay_bcmd (controller : Nat) (s : Snapshot)
  | replay_location (replay_bot : Nat) (s : Snapshot)
  | set_team (replay_bot : Nat) (team : Int)
  | spawn (replay_bot : Nat)
deriving DecidableEq

/-- Player.resume: state := PLAYING. -/
def Player.resume (p : Player) : Player :=
  { p with state := PlayerState.playing }

/-- Player.pause: state := PAUSED. -/
def Player.pause (p : Player) : Player :=
  { p with state := PlayerState.paused }

/-- Player.stop: tick := len(recording) - 1, state := STOPPED. -/
def Player.stop (p : Player) : Player :=
  { p with tick := (p.recording.snapshots.length : ℤ) - 1,
           state := PlayerState.stopped }

/-- Player.start: tick := 0, set the bot team, force a spawn, then resume. -/
def Player.start (p : Player) : Player × List Effect :=
  ({ p with tick := 0, state := PlayerState.playing },
   [Effect.set_team p.replay_bot p.recording.player.team,
    Effect.spawn p.replay_bot])

/-- Player.played_time: self.tick * self.recording.tick_interval
(the method body itself, as called with parentheses). -/
def Player.played_time (p : Player) : ℚ :=
  p.tick * p.recording.tick_interval

/-- Player.remaining_time: the source reads self.recording.duration (a
property, so a float) and subtracts self.played_time, which lacks the call
parentheses and therefore denotes the bound method object, not a float. -/
def Player.remaining_time (p : Player) : Except PyErr ℚ :=
  pySub (PyVal.num p.recording.duration) PyVal.boundMethod

/-- The host requests one playing handle_tick issues: replay the snapshot's
bot command unconditionally, and correct the location when tick is 0 or
adjust is set and the squared distance between the replay bot's current
origin and the snapshot origin exceeds 2500. -/
def Player.tickEffects (p : Player) (bot_origin : Vec3)
    (snapshot : Snapshot) : List Effect :=
  Effect.replay_bcmd p.controller snapshot ::
    (if p.tick = 0 ∨ (p.adjust = true ∧
        bot_origin.get_distance_sqr snapshot.origin > 2500) then
      [Effect.replay_location p.replay_bot snapshot]
    else [])

/-- Player.handle_tick, the field updates: no-op unless PLAYING; index the
recording at tick; advance tick or stop at the last index, returning the
effects of tickEffects. -/
def Player.handle_tick (p : Player) (bot_origin : Vec3) :
    Except PyErr (Player × List Effect) :=
  if p.state ≠ PlayerState.playing then Except.ok (p, [])
  else
    match pyGet p.recording.snapshots p.tick with
    | Except.error e => Except.error e
    | Except.ok snapshot =>
      if p.tick < (p.recording.snapshots.length : ℤ) - 1 then
        Except.ok ({ p with tick := p.tick + 1 },
                   Player.tickEffects p bot_origin snapshot)
      else
        Except.ok ({ p with state := PlayerState.stopped },
                   Player.tickEffects p bot_origin snapshot)

/-- Operations that can be applied to one Player instance. -/
inductive PlayerOp where
  | start
  | resume
  | pause
  | stop
  | handleTick (bot_origin : Vec3)
deriving DecidableEq

/-- Apply one operation to a Player; a handle_tick that raises leaves the
object unchanged (the exception fires before any field assignment). -/
def Player.applyOp (p : Player) (op : PlayerOp) : Player :=
  match op with
  | PlayerOp.start => (Player.start p).1
  | PlayerOp.resume => Player.resume p
  | PlayerOp.pause => Player.pause p
  | PlayerOp.stop => Player.stop p
  | PlayerOp.handleTick o =>
    match Player.handle_tick p o with
    | Except.ok (q, _) => q
    | Except.error _ => p

/-- Apply a sequence of operations to a Player. -/
def Player.runOps (p : Player) (ops : List PlayerOp) : Player :=
  ops.foldl Player.applyOp p

/-- RecorderState enum. -/
inductive RecorderState where
  | paused
  | recording
  | stopped
deriving DecidableEq

/-- Recorder: captures one player (identified by pid, with its data) into a
recording. recording is None until start is called. -/
structure Recorder where
  player : PlayerData
  pid : Nat
  state : RecorderState
  recording : Option Recording
deriving DecidableEq

/-- Recorder init: paused, no recording. -/
def Recorder.init (pd : PlayerData) (pid : Nat) : Recorder :=
  ⟨pd, pid, RecorderState.paused, none⟩

/-- Recorder.start: a fresh Recording from the source player, state
RECORDING; any prior recording is discarded. No state guard. -/
def Recorder.start (env : WorldEnv) (r : Recorder) : Recorder :=
  { r with recording := some (Recording.init env r.player),
           state := RecorderState.recording }

/-- Recorder.pause: ValueError if stopped, else state := PAUSED. -/
def Recorder.pause (r : Recorder) : Except PyErr Recorder :=
  if r.state = RecorderState.stopped then
    Except.error (PyErr.valueError "Recorder is stopped.")
  else
    Except.ok { r with state := RecorderState.paused }

/-- Recorder.resume: ValueError if stopped, else state := RECORDING. -/
def Recorder.resume (r : Recorder) : Except PyErr Recorder :=
  if r.state = RecorderState.stopped then
    Except.error (PyErr.valueError "Recorder is stopped.")
  else
    Except.ok { r with state := RecorderState.recording }

/-- Python equality of two Recordings: Recording subclasses list, so eq is
the list eq of the snapshot payloads, elementwise; Snapshot defines no eq,
so the elements compare by identity token. Metadata plays no part. -/
def pyRecordingEq (a b : Recording) : Bool :=
  a.snapshots.map Snapshot.sid == b.snapshots.map Snapshot.sid

/-- Python membership (rec in db) on the recording database list: any element
identical to or eq-equal to rec. -/
def recMem (rec : Recording) (db : List Recording) : Bool :=
  db.any (fun e => e.rid == rec.rid || pyRecordingEq e rec)

/-- Recorder.stop(save): state := STOPPED unconditionally (no raise in the
body); then append the current recording to the recording database when save
holds, a recording exists and the membership test fails. -/
def Recorder.stop (r : Recorder) (save : Bool) (db : List Recording) :
    Except PyErr (Recorder × List Recording) :=
  let r2 := { r with state := RecorderState.stopped }
  match r.recording with
  | some rec =>
    if save && !(recMem rec db) then Except.ok (r2, db ++ [rec])
    else Except.ok (r2, db)
  | none => Except.ok (r2, db)

/-- Recorder.handle_tick: no-op unless RECORDING; else add a snapshot of the
source player (supplied by the host as snap) to the current recording. With
no current recording it is None.add_snapshot, an AttributeError. -/
def Recorder.handle_tick (r : Recorder) (snap : Snapshot) :
    Except PyErr Recorder :=
  if r.state ≠ RecorderState.recording then Except.ok r
  else
    match r.recording with
    | none => Except.error PyErr.attributeError
    | some rec =>
      Except.ok { r with recording := some (rec.add_snapshot snap) }

/-- Operations that can be applied to one Recorder instance (together with
the manager's recording database that stop writes to). -/
inductive ROp where
  | start (env : WorldEnv)
  | pause
  | resume
  | stop (save : Bool)
  | handleTick (snap : Snapshot)
deriving DecidableEq

/-- Whether an operation is a start. -/
def ROp.isStart : ROp → Bool
  | ROp.start _ => true
  | _ => false

/-- Apply one operation to a Recorder and the recording database; an
operation that raises leaves both unchanged (each raise in the source fires
before any mutation). -/
def Recorder.applyOp : Recorder × List Recording → ROp →
    Recorder × List Recording
  | (r, db), ROp.start env => (Recorder.start env r, db)
  | (r, db), ROp.pause =>
    match Recorder.pause r with
    | Except.ok r2 => (r2, db)
    | Except.error _ => (r, db)
  | (r, db), ROp.resume =>
    match Recorder.resume r with
    | Except.ok r2 => (r2, db)
    | Except.error _ => (r, db)
  | (r, db), ROp.stop save =>
    match Recorder.stop r save db with
    | Except.ok p => p
    | Except.error _ => (r, db)
  | (r, db), ROp.handleTick snap =>
    match Recorder.handle_tick r snap with
    | Except.ok r2 => (r2, db)
    | Except.error _ => (r, db)

/-- Apply a sequence of operations to a Recorder and the database. -/
def Recorder.runOps (s : Recorder × List Recording) (ops : List ROp) :
    Recorder × List Recording :=
  ops.foldl Recorder.applyOp s

/-- The host bot manager: create a bot edict by name, fetch the bot
controller for an edict, and the edict-to-index conversion. -/
structure BotManager where
  create_bot : String → Option Nat
  get_bot_controller : Nat → Option Nat
  index_from_edict : Nat → Nat

/-- Host requests issued by manager-level operations. -/
inductive HostEffect where
  | create_bot (name : String)
  | get_controller (edict : Nat)
  | set_team (replay_bot : Nat) (team : Int)
  | spawn (replay_bot : Nat)
deriving DecidableEq

/-- RecordingManager: the list payload of completed recordings plus the
recorder and player registries (Python dicts, insertion ordered). -/
structure RecordingManager where
  recordings : List Recording
  recorders : List (Nat × Recorder)
  players : List (Nat × Player)
deriving DecidableEq

/-- Python dict assignment d[k] = v: overwrite in place if the key exists,
else append in insertion order. -/
def dictSet {α : Type} (l : List (Nat × α)) (k : Nat) (v : α) :
    List (Nat × α) :=
  if l.any (fun e => e.1 == k) then
    l.map (fun e => if e.1 == k then (k, v) else e)
  else
    l ++ [(k, v)]

/-- RecordingManager.create_replay_bot_name. -/
def create_replay_bot_name (r : Recording) : String :=
  r.player.name ++ " (Replay Bot)"

/-- RecordingManager.create_player: raise if the recording is not playable,
request a bot, raise if the host yields none, request its controller, raise
if the host yields none, else register and return a fresh Player keyed by
the bot index. Returns the host requests issued, the manager state as left
behind, and the result or the exception raised. -/
def RecordingManager.create_player (bm : BotManager) (mgr : RecordingManager)
    (recording : Recording) (replay_bot_name : Option String)
    (adjust : Bool) :
    List HostEffect × RecordingManager × Except PyErr Player :=
  if recording.is_playable then
    let name := replay_bot_name.getD (create_replay_bot_name recording)
    match bm.create_bot name with
    | none => ([HostEffect.create_bot name], mgr,
               Except.error (PyErr.valueError "Failed to create a replay bot."))
    | some edict =>
      match bm.get_bot_controller edict with
      | none => ([HostEffect.create_bot name, HostEffect.get_controller edict],
                 mgr,
                 Except.error
                   (PyErr.valueError "Failed to get the bot controller."))
      | some controller =>
        let idx := bm.index_from_edict edict
        let player := Player.init recording controller idx adjust
        ([HostEffect.create_bot name, HostEffect.get_controller edict],
         { mgr with players := dictSet mgr.players idx player },
         Except.ok player)
  else
    ([], mgr, Except.error (PyErr.valueError "Recording is not playable."))

/-- RecordingManager.get_player: scan the player registry in order for a
player whose recording is this recording (object identity); return it when
found, else delegate to create_player (adjust defaulting to true). -/
def RecordingManager.get_player (bm : BotManager) (mgr : RecordingManager)
    (recording : Recording) (replay_bot_name : Option String) :
    List HostEffect × RecordingManager × Except PyErr Player :=
  match mgr.players.find? (fun e => e.2.recording.rid == recording.rid) with
  | some e => ([], mgr, Except.ok e.2)
  | none => RecordingManager.create_player bm mgr recording replay_bot_name true

/-- Recording.play: obtain a player through the manager, start it, return
it. Starting mutates the registered player object; the registry entry keyed
by its bot index holds the started state afterwards. -/
def Recording.play (bm : BotManager) (mgr : RecordingManager)
    (r : Recording) (replay_bot_name : Option String) :
    List HostEffect × RecordingManager × Except PyErr Player :=
  match RecordingManager.get_player bm mgr r replay_bot_name with
  | (effs, mgr2, Except.error e) => (effs, mgr2, Except.error e)
  | (effs, mgr2, Except.ok p) =>
    let p2 := (Player.start p).1
    (effs ++ [HostEffect.set_team p.replay_bot p.recording.player.team,
              HostEffect.spawn p.replay_bot],
     { mgr2 with players := dictSet mgr2.players p2.replay_bot p2 },
     Except.ok p2)

/-- Per-tick host inputs: the snapshot captured from each recorded player
and the current origin of each replay bot, both by registry key. -/
structure TickEnv where
  snapFor : Nat → Snapshot
  originFor : Nat → Vec3

/-- One handle_tick invocation inside the tick listener, by registry key. -/
inductive TickEvent where
  | recorderTick (key : Nat)
  | playerTick (key : Nat)
deriving DecidableEq

/-- First loop of on_tick: every recorder in registry order runs
handle_tick; an exception aborts the loop and propagates. -/
def runRecorderPhase (env : TickEnv) :
    List (Nat × Recorder) →
    List TickEvent × List (Nat × Recorder) × Except PyErr Unit
  | [] => ([], [], Except.ok ())
  | (k, r) :: rest =>
    match Recorder.handle_tick r (env.snapFor k) with
    | Except.error e => ([TickEvent.recorderTick k], (k, r) :: rest,
                         Except.error e)
    | Except.ok r2 =>
      let res := runRecorderPhase env rest
      (TickEvent.recorderTick k :: res.1, (k, r2) :: res.2.1, res.2.2)

/-- Second loop of on_tick: every player in registry order runs handle_tick;
an exception aborts the loop and propagates. -/
def runPlayerPhase (env : TickEnv) :
    List (Nat × Player) →
    List TickEvent × List (Nat × Player) × Except PyErr Unit
  | [] => ([], [], Except.ok ())
  | (k, p) :: rest =>
    match Player.handle_tick p (env.originFor k) with
    | Except.error e => ([TickEvent.playerTick k], (k, p) :: rest,
                         Except.error e)
    | Except.ok q =>
      let res := runPlayerPhase env rest
      (TickEvent.playerTick k :: res.1, (k, q.1) :: res.2.1, res.2.2)

/-- The on_tick listener: drive all recorders, then all players. Returns the
trace of handle_tick invocations in order, the updated manager and the
outcome. -/
def RecordingManager.on_tick (env : TickEnv) (mgr : RecordingManager) :
    List TickEvent × RecordingManager × Except PyErr Unit :=
  match (runRecorderPhase env mgr.recorders).2.2 with
  | Except.error e =>
    ((runRecorderPhase env mgr.recorders).1,
     { mgr with recorders := (runRecorderPhase env mgr.recorders).2.1 },
     Except.error e)
  | Except.ok _ =>
    ((runRecorderPhase env mgr.recorders).1 ++
       (runPlayerPhase env mgr.players).1,
     { mgr with recorders := (runRecorderPhase env mgr.recorders).2.1,
                players := (runPlayerPhase env mgr.players).2.1 },
     (runPlayerPhase env mgr.players).2.2)

/-! Concrete fixtures used by witnesses and counterexamples. -/

/-- A sample snapshot at the origin. -/
def snapA : Snapshot := ⟨0, ⟨0, 0, 0⟩, ⟨0, 0, 0⟩, ⟨0, 0, 0⟩, 0⟩

/-- A second sample snapshot, 60 units away on the x axis. -/
def snapB : Snapshot := ⟨1, ⟨60, 0, 0⟩, ⟨0, 0, 0⟩, ⟨0, 0, 0⟩, 1⟩

/-- A sample source player. -/
def pdA : PlayerData := ⟨"Alice", "STEAM_0:0:1", 2⟩

/-- A playable one-snapshot recording. -/
def recA : Recording := ⟨1, 0, "css", "de_dust2", 1, pdA, [snapA]⟩

/-- A playable two-snapshot recording. -/
def recB : Recording := ⟨2, 0, "css", "de_dust2", 1, pdA, [snapA, snapB]⟩

/-- An empty recording. -/
def recEmptyA : Recording := ⟨3, 0, "css", "de_dust2", 1, pdA, []⟩

/-- Another empty recording: a distinct object whose payload compares equal. -/
def recEmptyB : Recording := ⟨4, 7, "css", "de_nuke", 1, pdA, []⟩

/-- A sample world environment for Recorder.start. -/
def envW : WorldEnv := ⟨10, "css", "de_dust2", 1, 9⟩

/-- A live player bound to recA, registered under bot index 5. -/
def pA : Player := Player.init recA 10 5 true

/-- A host that allocates edict 7 and controller 70, with identity
edict-to-index conversion. -/
def bm0 : BotManager := ⟨fun _ => some 7, fun _ => some 70, fun e => e⟩

/-- A manager whose player registry already binds recA to pA. -/
def mgr0 : RecordingManager := ⟨[], [], [(5, pA)]⟩

/-- A manager with empty registries. -/
def mgrEmpty : RecordingManager := ⟨[], [], []⟩

/-- The zero vector. -/
def vz : Vec3 := ⟨0, 0, 0⟩

/-- pA switched into the playing state. -/
def pPlay : Player := { pA with state := PlayerState.playing }

/-- A freshly initialized Player on recA. -/
def pInit : Player := Player.init recA 0 0 true

/-- A recorder that was started and captured nothing: its current recording
is the empty recEmptyA. -/
def rRecEmpty : Recorder := ⟨pdA, 1, RecorderState.recording, some recEmptyA⟩

/-- A recorder already in the stopped state. -/
def rStopped : Recorder :=
  { Recorder.init pdA 1 with state := RecorderState.stopped }

/-! Helper lemmas. -/

/-- The membership test accepts a list that ends with the probe itself. -/
theorem recMem_append_self (rec : Recording) (db : List Recording) :
    recMem rec (db ++ [rec]) = true := by
  simp [recMem, pyRecordingEq]

/-- Python indexing succeeds on an index within the forward range. -/
theorem pyGet_ok_of_range {α : Type} (l : List α) (i : ℤ) (h0 : 0 ≤ i)
    (hl : i < (l.length : ℤ)) : ∃ a, pyGet l i = Except.ok a := by
  unfold pyGet
  rw [dif_pos ⟨h0, hl⟩]
  exact ⟨_, rfl⟩

/-- handle_tick on a non-playing Player leaves it unchanged. -/
theorem applyOp_handleTick_not_playing (p : Player) (o : Vec3)
    (h : p.state ≠ PlayerState.playing) :
    Player.applyOp p (PlayerOp.handleTick o) = p := by
  simp [Player.applyOp, Player.handle_tick, h]

/-- handle_tick on a playing Player with an in-range cursor advances the
cursor, or stops at the final index. -/
theorem applyOp_handleTick_inrange (p : Player) (o : Vec3)
    (h : p.state = PlayerState.playing) (h0 : 0 ≤ p.tick)
    (hl : p.tick < (p.recording.snapshots.length : ℤ)) :
    Player.applyOp p (PlayerOp.handleTick o) =
      if p.tick < (p.recording.snapshots.length : ℤ) - 1 then
        { p with tick := p.tick + 1 }
      else
        { p with state := PlayerState.stopped } := by
  obtain ⟨a, hget⟩ := pyGet_ok_of_range p.recording.snapshots p.tick h0 hl
  by_cases hlt : p.tick < (p.recording.snapshots.length : ℤ) - 1
  · simp [Player.applyOp, Player.handle_tick, h, hget, hlt]
  · simp [Player.applyOp, Player.handle_tick, h, hget, hlt]

/-- A successful handle_tick never changes which recording is played. -/
theorem handle_tick_recording (p : Player) (o : Vec3) (q : Player)
    (effs : List Effect) (h : Player.handle_tick p o = Except.ok (q, effs)) :
    q.recording = p.recording := by
  unfold Player.handle_tick at h
  by_cases hp : p.state = PlayerState.playing
  · rw [if_neg (by simp [hp])] at h
    split at h
    · exact Except.noConfusion h
    · split at h <;>
        (injection h with h2; injection h2 with h3 h4; rw [← h3])
  · rw [if_pos hp] at h
    injection h with h2
    injection h2 with h3 h4
    rw [← h3]

/-- No Player operation changes which recording is played. -/
theorem applyOp_recording (p : Player) (op : PlayerOp) :
    (Player.applyOp p op).recording = p.recording := by
  cases op with
  | start => rfl
  | resume => rfl
  | pause => rfl
  | stop => rfl
  | handleTick o =>
    show (match Player.handle_tick p o with
          | Except.ok (q, _) => q
          | Except.error _ => p).recording = p.recording
    rcases hh : Player.handle_tick p o with e | ⟨q, effs⟩
    · rfl
    · exact handle_tick_recording p o q effs hh

/-- No sequence of Player operations changes which recording is played. -/
theorem runOps_recording (ops : List PlayerOp) : ∀ p : Player,
    (Player.runOps p ops).recording = p.recording := by
  induction ops with
  | nil => intro p; rfl
  | cons op rest ih =>
    intro p
    show (Player.runOps (Player.applyOp p op) rest).recording = p.recording
    rw [ih, applyOp_recording]

/-- The cursor invariant of a Player: the tick is a valid forward index. -/
def PInv (p : Player) : Prop :=
  0 ≤ p.tick ∧ p.tick < (p.recording.snapshots.length : ℤ)

/-- Every Player operation preserves the cursor invariant when the recording
is non-empty. -/
theorem applyOp_preserves_PInv (p : Player) (op : PlayerOp)
    (hne : p.recording.snapshots ≠ []) (h : PInv p) :
    PInv (Player.applyOp p op) := by
  have hpos : 0 < p.recording.snapshots.length := List.length_pos.mpr hne
  obtain ⟨h1, h2⟩ := h
  cases op with
  | start =>
    refine ⟨le_refl 0, ?_⟩
    show (0 : ℤ) < (p.recording.snapshots.length : ℤ)
    exact_mod_cast hpos
  | resume => exact ⟨h1, h2⟩
  | pause => exact ⟨h1, h2⟩
  | stop =>
    constructor
    · show 0 ≤ (p.recording.snapshots.length : ℤ) - 1
      omega
    · show (p.recording.snapshots.length : ℤ) - 1 <
        (p.recording.snapshots.length : ℤ)
      omega
  | handleTick o =>
    by_cases hp : p.state = PlayerState.playing
    · rw [applyOp_handleTick_inrange p o hp h1 h2]
      by_cases hlt : p.tick < (p.recording.snapshots.length : ℤ) - 1
      · rw [if_pos hlt]
        constructor
        · show (0 : ℤ) ≤ p.tick + 1
          omega
        · show p.tick + 1 < (p.recording.snapshots.length : ℤ)
          omega
      · rw [if_neg hlt]
        exact ⟨h1, h2⟩
    · rw [applyOp_handleTick_not_playing p o hp]
      exact ⟨h1, h2⟩

/-- Every sequence of Player operations preserves the cursor invariant. -/
theorem runOps_preserves_PInv (ops : List PlayerOp) : ∀ p : Player,
    p.recording.snapshots ≠ [] → PInv p → PInv (Player.runOps p ops) := by
  induction ops with
  | nil => intro p _ h; exact h
  | cons op rest ih =>
    intro p hne h
    show PInv (Player.runOps (Player.applyOp p op) rest)
    refine ih _ ?_ (applyOp_preserves_PInv p op hne h)
    rw [applyOp_recording]
    exact hne

/-- Enough handle_tick calls from a playing state reach the stopped state at
the final index: k is the number of increments still needed. -/
theorem exhaust_lemma (k : Nat) : ∀ (p : Player) (os : List Vec3),
    p.state = PlayerState.playing → PInv p →
    (p.recording.snapshots.length : ℤ) - 1 - p.tick = k →
    os.length = k + 1 →
    (Player.runOps p (os.map PlayerOp.handleTick)).state =
      PlayerState.stopped ∧
    (Player.runOps p (os.map PlayerOp.handleTick)).tick =
      (p.recording.snapshots.length : ℤ) - 1 := by
  induction k with
  | zero =>
    intro p os hp hinv hk hlen
    rcases os with _ | ⟨o, os2⟩
    · rw [List.length_nil] at hlen
      exact absurd hlen (by omega)
    rcases os2 with _ | ⟨o2, os3⟩
    · obtain ⟨hinv1, hinv2⟩ := hinv
      have hnlt : ¬ p.tick < (p.recording.snapshots.length : ℤ) - 1 := by
        omega
      have hstep := applyOp_handleTick_inrange p o hp hinv1 hinv2
      rw [if_neg hnlt] at hstep
      show (Player.applyOp p (PlayerOp.handleTick o)).state =
          PlayerState.stopped ∧
        (Player.applyOp p (PlayerOp.handleTick o)).tick =
          (p.recording.snapshots.length : ℤ) - 1
      rw [hstep]
      refine ⟨rfl, ?_⟩
      show p.tick = (p.recording.snapshots.length : ℤ) - 1
      omega
    · rw [List.length_cons, List.length_cons] at hlen
      exact absurd hlen (by omega)
  | succ k ih =>
    intro p os hp hinv hk hlen
    rcases os with _ | ⟨o, os2⟩
    · rw [List.length_nil] at hlen
      exact absurd hlen (by omega)
    · obtain ⟨hinv1, hinv2⟩ := hinv
      have hlt : p.tick < (p.recording.snapshots.length : ℤ) - 1 := by omega
      have hstep := applyOp_handleTick_inrange p o hp hinv1 hinv2
      rw [if_pos hlt] at hstep
      have hrun : Player.runOps p ((o :: os2).map PlayerOp.handleTick) =
          Player.runOps (Player.applyOp p (PlayerOp.handleTick o))
            (os2.map PlayerOp.handleTick) := rfl
      rw [hrun, hstep]
      have hinv3 : PInv { p with tick := p.tick + 1 } := by
        constructor
        · show (0 : ℤ) ≤ p.tick + 1
          omega
        · show p.tick + 1 < (p.recording.snapshots.length : ℤ)
          omega
      have hk2 : (({ p with tick := p.tick + 1 } :
          Player).recording.snapshots.length : ℤ) - 1 -
          ({ p with tick := p.tick + 1 } : Player).tick = (k : ℤ) := by
        show (p.recording.snapshots.length : ℤ) - 1 - (p.tick + 1) = (k : ℤ)
        omega
      have hlen2 : os2.length = k + 1 := by
        rw [List.length_cons] at hlen
        omega
      have hres := ih { p with tick := p.tick + 1 } os2 hp hinv3 hk2 hlen2
      exact ⟨hres.1, hres.2⟩

/-- All events of the recorder phase are recorder invocations. -/
theorem recorder_phase_events (env : TickEnv) (l : List (Nat × Recorder)) :
    ∀ e ∈ (runRecorderPhase env l).1, ∃ k, e = TickEvent.recorderTick k := by
  induction l with
  | nil => intro e he; simp [runRecorderPhase] at he
  | cons hd rest ih =>
    intro e he
    unfold runRecorderPhase at he
    rcases hh : Recorder.handle_tick hd.2 (env.snapFor hd.1) with x | r2 <;>
      rw [hh] at he <;> simp at he
    · exact ⟨hd.1, he⟩
    · rcases he with he | he
      · exact ⟨hd.1, he⟩
      · exact ih e he

/-- All events of the player phase are player invocations. -/
theorem player_phase_events (env : TickEnv) (l : List (Nat × Player)) :
    ∀ e ∈ (runPlayerPhase env l).1, ∃ k, e = TickEvent.playerTick k := by
  induction l with
  | nil => intro e he; simp [runPlayerPhase] at he
  | cons hd rest ih =>
    intro e he
    unfold runPlayerPhase at he
    rcases hh : Player.handle_tick hd.2 (env.originFor hd.1) with x | q <;>
      rw [hh] at he <;> simp at he
    · exact ⟨hd.1, he⟩
    · rcases he with he | he
      · exact ⟨hd.1, he⟩
      · exact ih e he

/-- stop with no current recording: state change only. -/
theorem stop_none (r : Recorder) (save : Bool) (db : List Recording)
    (hrec : r.recording = none) :
    Recorder.stop r save db =
      Except.ok ({ r with state := RecorderState.stopped }, db) := by
  simp [Recorder.stop, hrec]

/-- stop that registers: save set and the membership test fails. -/
theorem stop_register_of_not_mem (r : Recorder) (rec : Recording)
    (db : List Recording) (save : Bool) (hrec : r.recording = some rec)
    (hsave : save = true) (hm : recMem rec db = false) :
    Recorder.stop r save db =
      Except.ok ({ r with state := RecorderState.stopped }, db ++ [rec]) := by
  simp [Recorder.stop, hrec, hsave, hm]

/-- stop that skips registration because the membership test succeeds. -/
theorem stop_no_register_of_mem (r : Recorder) (rec : Recording)
    (db : List Recording) (save : Bool) (hrec : r.recording = some rec)
    (hm : recMem rec db = true) :
    Recorder.stop r save db =
      Except.ok ({ r with state := RecorderState.stopped }, db) := by
  simp [Recorder.stop, hrec, hm]

/-- stop with save unset never registers. -/
theorem stop_save_false (r : Recorder) (save : Bool) (db : List Recording)
    (hsave : save = false) :
    Recorder.stop r save db =
      Except.ok ({ r with state := RecorderState.stopped }, db) := by
  rcases Option.eq_none_or_eq_some r.recording with hrec | ⟨rec, hrec⟩
  · exact stop_none r save db hrec
  · simp [Recorder.stop, hrec, hsave]

/-- stop always succeeds and always moves the state to STOPPED. -/
theorem stop_ok_shape (r : Recorder) (save : Bool) (db : List Recording) :
    ∃ db2, Recorder.stop r save db =
      Except.ok ({ r with state := RecorderState.stopped }, db2) := by
  rcases Option.eq_none_or_eq_some r.recording with hrec | ⟨rec, hrec⟩
  · exact ⟨db, stop_none r save db hrec⟩
  · by_cases hsave : save = true
    · by_cases hm : recMem rec db = true
      · exact ⟨db, stop_no_register_of_mem r rec db save hrec hm⟩
      · exact ⟨db ++ [rec], stop_register_of_not_mem r rec db save hrec
          hsave (by simpa using hm)⟩
    · exact ⟨db, stop_save_false r save db (by simpa using hsave)⟩

/-- A stopped Recorder stays stopped under any single operation other than
start. -/
theorem applyOp_stopped_of_not_start (r : Recorder) (db : List Recording)
    (op : ROp) (h1 : r.state = RecorderState.stopped)
    (h2 : op.isStart = false) :
    (Recorder.applyOp (r, db) op).1.state = RecorderState.stopped := by
  cases op with
  | start env => simp [ROp.isStart] at h2
  | pause => simp [Recorder.applyOp, Recorder.pause, h1]
  | resume => simp [Recorder.applyOp, Recorder.resume, h1]
  | stop save =>
    obtain ⟨db2, hst⟩ := stop_ok_shape r save db
    simp [Recorder.applyOp, hst]
  | handleTick snap => simp [Recorder.applyOp, Recorder.handle_tick, h1]

/-- A stopped Recorder stays stopped under any operation sequence free of
start. -/
theorem runOps_stopped (ops : List ROp) : ∀ s : Recorder × List Recording,
    s.1.state = RecorderState.stopped → (∀ op ∈ ops, op.isStart = false) →
    (Recorder.runOps s ops).1.state = RecorderState.stopped := by
  induction ops with
  | nil => intro s h _; exact h
  | cons op rest ih =>
    intro s h hall
    show (Recorder.runOps (Recorder.applyOp s op) rest).1.state =
      RecorderState.stopped
    refine ih _ ?_ (fun x hx => hall x (List.mem_cons_of_mem op hx))
    obtain ⟨r, db⟩ := s
    exact applyOp_stopped_of_not_start r db op h
      (hall op (List.mem_cons_self op rest))

/-! Claim theorems. -/

/-- C1: for every Player, remaining_time raises TypeError instead of
returning recording.duration minus played_time: the source subtracts the
bound method self.played_time (no call parentheses) from the float property
self.recording.duration. -/
theorem remaining_time_raises_type_error (p : Player) :
    Player.remaining_time p = Except.error PyErr.typeError := rfl

/-- C6: Recorder.pause and Recorder.resume fail with the invalid-state
ValueError exactly when the Recorder is stopped; on that error the Recorder
and the database are unchanged, and otherwise pause moves the state to
PAUSED and resume to RECORDING, changing nothing else. -/
theorem pause_resume_fail_iff_stopped (r : Recorder) (db : List Recording) :
    (Recorder.pause r = Except.error (PyErr.valueError "Recorder is stopped.")
      ↔ r.state = RecorderState.stopped) ∧
    (Recorder.resume r = Except.error (PyErr.valueError "Recorder is stopped.")
      ↔ r.state = RecorderState.stopped) ∧
    (r.state = RecorderState.stopped →
      Recorder.applyOp (r, db) ROp.pause = (r, db) ∧
      Recorder.applyOp (r, db) ROp.resume = (r, db)) ∧
    (r.state ≠ RecorderState.stopped →
      Recorder.pause r = Except.ok { r with state := RecorderState.paused } ∧
      Recorder.resume r =
        Except.ok { r with state := RecorderState.recording }) := by
  by_cases h : r.state = RecorderState.stopped <;>
    simp [Recorder.pause, Recorder.resume, Recorder.applyOp, h]

/-- C7: Recorder.stop(save) always succeeds and moves the state to STOPPED,
even when the recorder was never started; it appends the current recording
to the database exactly when save holds, a recording exists and the
membership test fails; and after a stop that registered, a second stop
leaves the database unchanged. -/
theorem stop_unconditional_and_registers_once (r : Recorder)
    (save save2 : Bool) (db : List Recording) :
    ∃ r2 db2, Recorder.stop r save db = Except.ok (r2, db2) ∧
      r2 = { r with state := RecorderState.stopped } ∧
      ((∃ rec, r.recording = some rec ∧ save = true ∧
          recMem rec db = false) →
        ∃ rec, r.recording = some rec ∧ db2 = db ++ [rec]) ∧
      ((¬ ∃ rec, r.recording = some rec ∧ save = true ∧
          recMem rec db = false) → db2 = db) ∧
      (db2 ≠ db → ∃ r3, Recorder.stop r2 save2 db2 =
        Except.ok (r3, db2)) := by
  rcases Option.eq_none_or_eq_some r.recording with hrec | ⟨rec, hrec⟩
  · refine ⟨_, db, stop_none r save db hrec, rfl, ?_, fun _ => rfl,
      fun hne2 => absurd rfl hne2⟩
    rintro ⟨rec2, hsome, -, -⟩
    rw [hrec] at hsome
    exact Option.noConfusion hsome
  · by_cases hsave : save = true
    · by_cases hm : recMem rec db = true
      · refine ⟨_, db, stop_no_register_of_mem r rec db save hrec hm, rfl,
          ?_, fun _ => rfl, fun hne2 => absurd rfl hne2⟩
        rintro ⟨rec2, hsome2, -, hmem2⟩
        rw [hrec] at hsome2
        injection hsome2 with he
        subst he
        rw [hm] at hmem2
        exact Bool.noConfusion hmem2
      · have hm2 : recMem rec db = false := by simpa using hm
        refine ⟨_, db ++ [rec],
          stop_register_of_not_mem r rec db save hrec hsave hm2, rfl,
          fun _ => ⟨rec, hrec, rfl⟩, ?_, ?_⟩
        · intro hno
          exact absurd ⟨rec, hrec, hsave, hm2⟩ hno
        · intro _
          exact ⟨_, stop_no_register_of_mem _ rec (db ++ [rec]) save2 hrec
            (recMem_append_self rec db)⟩
    · have hsave2 : save = false := by simpa using hsave
      refine ⟨_, db, stop_save_false r save db hsave2, rfl, ?_,
        fun _ => rfl, fun hne2 => absurd rfl hne2⟩
      rintro ⟨rec2, -, hsv, -⟩
      rw [hsave2] at hsv
      exact Bool.noConfusion hsv

/-- C10: Recording membership in the database uses list content equality,
not object identity: when the database already holds a distinct Recording
whose snapshot sequence compares equal, stop(save=true) silently skips
registration of the current Recording. -/
theorem stop_skips_content_equal_recording (r : Recorder) (rec : Recording)
    (db : List Recording) (hrec : r.recording = some rec)
    (h : ∃ e ∈ db, e.rid ≠ rec.rid ∧ pyRecordingEq e rec = true) :
    Recorder.stop r true db =
      Except.ok ({ r with state := RecorderState.stopped }, db) := by
  obtain ⟨e, hmem, -, heq⟩ := h
  have hm : recMem rec db = true := by
    simp only [recMem, List.any_eq_true]
    exact ⟨e, hmem, by rw [heq]; simp⟩
  exact stop_no_register_of_mem r rec db true hrec hm

/-- Witness for C10 at two distinct empty Recordings: recEmptyB already in
the database blocks registration of recEmptyA. -/
theorem stop_skips_content_equal_recording_witness :
    Recorder.stop rRecEmpty true [recEmptyB] =
      Except.ok ({ rRecEmpty with state := RecorderState.stopped },
        [recEmptyB]) :=
  stop_skips_content_equal_recording rRecEmpty recEmptyA [recEmptyB] rfl
    ⟨recEmptyB, by decide, by decide, rfl⟩

/-- C2 counterexample: with a live Player pA already bound to recA in the
registry, create_player does not return pA; it creates and registers a
second Player, so the registry grows to two entries. -/
theorem create_player_duplicates_existing_player :
    pA.recording = recA ∧
    (5, pA) ∈ mgr0.players ∧
    (RecordingManager.create_player bm0 mgr0 recA none true).2.2 =
      Except.ok (Player.init recA 70 7 true) ∧
    Player.init recA 70 7 true ≠ pA ∧
    (RecordingManager.create_player bm0 mgr0 recA none true).2.1.players.length
      = 2 := by
  refine ⟨rfl, by decide, by decide, by decide, by decide⟩

/-- C2 amended: it is get_player, not create_player, that returns the
already-registered Player bound to the recording, issuing no host request
and leaving the manager unchanged. -/
theorem get_player_returns_existing_player (bm : BotManager)
    (mgr : RecordingManager) (r : Recording) (nm : Option String)
    (h : ∃ e ∈ mgr.players, e.2.recording.rid = r.rid) :
    ∃ e ∈ mgr.players, e.2.recording.rid = r.rid ∧
      RecordingManager.get_player bm mgr r nm = ([], mgr, Except.ok e.2) := by
  obtain ⟨e, hmem, hrid⟩ := h
  have hsome : (mgr.players.find?
      (fun x => x.2.recording.rid == r.rid)).isSome := by
    rw [List.find?_isSome]
    exact ⟨e, hmem, by simp [hrid]⟩
  rcases hfind : mgr.players.find? (fun x => x.2.recording.rid == r.rid)
    with _ | e0
  · rw [hfind] at hsome
    simp at hsome
  · have hmem0 : e0 ∈ mgr.players := List.mem_of_find?_eq_some hfind
    have hpred : (e0.2.recording.rid == r.rid) = true := by
      have := List.find?_some hfind
      exact this
    refine ⟨e0, hmem0, by simpa using hpred, ?_⟩
    simp only [RecordingManager.get_player, hfind]

/-- Witness for C2 amended at the concrete registry binding recA to pA. -/
theorem get_player_returns_existing_player_witness :
    ∃ e ∈ mgr0.players, e.2.recording.rid = recA.rid ∧
      RecordingManager.get_player bm0 mgr0 recA none =
        ([], mgr0, Except.ok e.2) :=
  get_player_returns_existing_player bm0 mgr0 recA none
    ⟨(5, pA), by decide, by decide⟩

/-- C8: is_playable is false exactly on an empty snapshot sequence; and on a
non-playable recording create_player and play both fail with the
not-playable ValueError, issuing no host request and leaving the manager
unchanged (no Player registered). The play part assumes no registered
Player is bound to the recording, which create_player guarantees for
unplayable recordings. -/
theorem not_playable_blocks_player_creation (r : Recording)
    (bm : BotManager) (mgr : RecordingManager) (nm : Option String)
    (adjust : Bool) (hnp : r.is_playable = false)
    (hnb : ∀ e ∈ mgr.players, e.2.recording.rid ≠ r.rid) :
    r.snapshots = [] ∧
    (∀ r2 : Recording, r2.is_playable = false ↔ r2.snapshots = []) ∧
    RecordingManager.create_player bm mgr r nm adjust =
      ([], mgr, Except.error (PyErr.valueError
        "Recording is not playable.")) ∧
    Recording.play bm mgr r nm =
      ([], mgr, Except.error (PyErr.valueError
        "Recording is not playable.")) := by
  have hiff : ∀ r2 : Recording, r2.is_playable = false ↔ r2.snapshots = [] := by
    intro r2
    simp [Recording.is_playable, List.length_eq_zero]
  have hcp : ∀ adj : Bool, RecordingManager.create_player bm mgr r nm adj =
      ([], mgr, Except.error (PyErr.valueError
        "Recording is not playable.")) := by
    intro adj
    simp [RecordingManager.create_player, hnp]
  have hfind : mgr.players.find? (fun x => x.2.recording.rid == r.rid)
      = none := by
    rw [List.find?_eq_none]
    intro e hmem
    simpa using hnb e hmem
  refine ⟨(hiff r).mp hnp, hiff, hcp adjust, ?_⟩
  simp only [Recording.play, RecordingManager.get_player, hfind, hcp true]

/-- Witness for C8 at the empty recording recEmptyA with empty registries. -/
theorem not_playable_blocks_player_creation_witness :
    recEmptyA.snapshots = [] ∧
    (∀ r2 : Recording, r2.is_playable = false ↔ r2.snapshots = []) ∧
    RecordingManager.create_player bm0 mgrEmpty recEmptyA none true =
      ([], mgrEmpty, Except.error (PyErr.valueError
        "Recording is not playable.")) ∧
    Recording.play bm0 mgrEmpty recEmptyA none =
      ([], mgrEmpty, Except.error (PyErr.valueError
        "Recording is not playable.")) :=
  not_playable_blocks_player_creation recEmptyA bm0 mgrEmpty none true
    (by decide) (by decide)

/-- C3 counterexample: a Recorder that has entered Stopped returns to the
Recording state through the single operation start, because Recorder.start
carries no state guard. -/
theorem stop_then_start_reaches_recording :
    (Recorder.runOps (Recorder.init pdA 1, []) [ROp.stop true]).1.state =
      RecorderState.stopped ∧
    (Recorder.runOps (Recorder.init pdA 1, [])
        [ROp.stop true, ROp.start envW]).1.state =
      RecorderState.recording := by
  decide

/-- C3 amended: once stopped, a Recorder stays stopped under every sequence
of pause, resume, stop and handle_tick operations (pause and resume raise,
leaving the state unchanged), but a single start returns it to Recording
with a fresh Recording, so Stopped is not terminal against start. -/
theorem stopped_recorder_stays_stopped_without_start (r : Recorder)
    (db : List Recording) (ops : List ROp) (env : WorldEnv)
    (h1 : r.state = RecorderState.stopped)
    (h2 : ∀ op ∈ ops, op.isStart = false) :
    (Recorder.runOps (r, db) ops).1.state = RecorderState.stopped ∧
    (Recorder.applyOp (r, db) (ROp.start env)).1.state =
      RecorderState.recording :=
  ⟨runOps_stopped ops (r, db) h1 h2, rfl⟩

/-- Witness for C3 amended at a concrete stopped Recorder and a concrete
start-free operation sequence. -/
theorem stopped_recorder_stays_stopped_without_start_witness :
    (Recorder.runOps (rStopped, [])
        [ROp.pause, ROp.resume, ROp.stop true,
         ROp.handleTick snapA]).1.state = RecorderState.stopped ∧
    (Recorder.applyOp (rStopped, []) (ROp.start envW)).1.state =
      RecorderState.recording :=
  stopped_recorder_stays_stopped_without_start rStopped []
    [ROp.pause, ROp.resume, ROp.stop true, ROp.handleTick snapA] envW
    rfl (by decide)

/-- C4: a playing handle_tick replays the current snapshot's bot command,
and issues the kinematics correction exactly when tick is 0, or adjust is
enabled and the squared distance between the bot's current origin and the
snapshot's recorded origin is strictly greater than 2500. -/
theorem handle_tick_correction_condition (p : Player) (o : Vec3)
    (s : Snapshot) (hplay : p.state = PlayerState.playing)
    (hs : pyGet p.recording.snapshots p.tick = Except.ok s) :
    ∃ q effs, Player.handle_tick p o = Except.ok (q, effs) ∧
      Effect.replay_bcmd p.controller s ∈ effs ∧
      (Effect.replay_location p.replay_bot s ∈ effs ↔
        (p.tick = 0 ∨ (p.adjust = true ∧
          o.get_distance_sqr s.origin > 2500))) := by
  have hmem : Effect.replay_bcmd p.controller s ∈
      Player.tickEffects p o s := by
    simp [Player.tickEffects]
  have hiff : Effect.replay_location p.replay_bot s ∈
      Player.tickEffects p o s ↔
      (p.tick = 0 ∨ (p.adjust = true ∧
        o.get_distance_sqr s.origin > 2500)) := by
    by_cases hc : p.tick = 0 ∨ (p.adjust = true ∧
        o.get_distance_sqr s.origin > 2500)
    · simp [Player.tickEffects, hc]
    · simp [Player.tickEffects, hc]
  by_cases hlt : p.tick < (p.recording.snapshots.length : ℤ) - 1
  · exact ⟨{ p with tick := p.tick + 1 }, Player.tickEffects p o s,
      by simp [Player.handle_tick, hplay, hs, hlt], hmem, hiff⟩
  · exact ⟨{ p with state := PlayerState.stopped }, Player.tickEffects p o s,
      by simp [Player.handle_tick, hplay, hs, hlt], hmem, hiff⟩

/-- Witness for C4 at a concrete playing Player on tick 0. -/
theorem handle_tick_correction_condition_witness :
    ∃ q effs, Player.handle_tick pPlay vz = Except.ok (q, effs) ∧
      Effect.replay_bcmd pPlay.controller snapA ∈ effs ∧
      (Effect.replay_location pPlay.replay_bot snapA ∈ effs ↔
        (pPlay.tick = 0 ∨ (pPlay.adjust = true ∧
          vz.get_distance_sqr snapA.origin > 2500))) :=
  handle_tick_correction_condition pPlay vz snapA rfl (by decide)

/-- C5: for a Player driving a non-empty Recording, every reachable state
that is not stopped keeps the cursor in range; from any reachable playing
state, enough handle_tick calls to exhaust the Recording end in the stopped
state at the last index; and handle_tick on a stopped Player changes
nothing. -/
theorem player_tick_cursor_invariant (r : Recording) (c b : Nat)
    (adj : Bool) (ops : List PlayerOp) (os : List Vec3) (o : Vec3)
    (p : Player) (hne : r.snapshots ≠ [])
    (hp : p = Player.runOps (Player.init r c b adj) ops) :
    (p.state ≠ PlayerState.stopped →
      0 ≤ p.tick ∧ p.tick < (r.snapshots.length : ℤ)) ∧
    (p.state = PlayerState.playing →
      os.length = ((r.snapshots.length : ℤ) - p.tick).toNat →
      (Player.runOps p (os.map PlayerOp.handleTick)).state =
        PlayerState.stopped ∧
      (Player.runOps p (os.map PlayerOp.handleTick)).tick =
        (r.snapshots.length : ℤ) - 1) ∧
    (p.state = PlayerState.stopped →
      Player.applyOp p (PlayerOp.handleTick o) = p) := by
  have hrec : p.recording = r := by
    rw [hp, runOps_recording]
    rfl
  have hinv : PInv p := by
    rw [hp]
    refine runOps_preserves_PInv ops (Player.init r c b adj) hne ?_
    refine ⟨le_refl 0, ?_⟩
    show (0 : ℤ) < (r.snapshots.length : ℤ)
    exact_mod_cast List.length_pos.mpr hne
  have h0 : 0 ≤ p.tick := hinv.1
  have h2 : p.tick < (r.snapshots.length : ℤ) := by
    have := hinv.2
    rwa [hrec] at this
  refine ⟨fun _ => ⟨h0, h2⟩, fun hplay hlen => ?_, fun hstop => ?_⟩
  · have hk : (p.recording.snapshots.length : ℤ) - 1 - p.tick =
        ((((r.snapshots.length : ℤ) - 1 - p.tick).toNat : ℕ) : ℤ) := by
      rw [hrec, Int.toNat_of_nonneg (by omega)]
    have hlen2 : os.length =
        ((r.snapshots.length : ℤ) - 1 - p.tick).toNat + 1 := by
      omega
    have hres := exhaust_lemma
      (((r.snapshots.length : ℤ) - 1 - p.tick).toNat) p os hplay hinv hk
      hlen2
    rw [hrec] at hres
    exact hres
  · apply applyOp_handleTick_not_playing
    rw [hstop]
    simp

/-- Witness for C5 at the one-snapshot recording recA, the freshly
initialized Player and a single-tick origin sequence. -/
theorem player_tick_cursor_invariant_witness :
    (pInit.state ≠ PlayerState.stopped →
      0 ≤ pInit.tick ∧ pInit.tick < (recA.snapshots.length : ℤ)) ∧
    (pInit.state = PlayerState.playing →
      [vz].length = ((recA.snapshots.length : ℤ) - pInit.tick).toNat →
      (Player.runOps pInit ([vz].map PlayerOp.handleTick)).state =
        PlayerState.stopped ∧
      (Player.runOps pInit ([vz].map PlayerOp.handleTick)).tick =
        (recA.snapshots.length : ℤ) - 1) ∧
    (pInit.state = PlayerState.stopped →
      Player.applyOp pInit (PlayerOp.handleTick vz) = pInit) :=
  player_tick_cursor_invariant recA 0 0 true [] [vz] vz pInit (by decide)
    rfl

/-- C9: within one on_tick invocation the event trace splits into a block
of recorder invocations followed by a block of player invocations: no
recorder runs after any player within the tick. -/
theorem on_tick_recorders_before_players (env : TickEnv)
    (mgr : RecordingManager) :
    ∃ evR evP, (RecordingManager.on_tick env mgr).1 = evR ++ evP ∧
      (∀ e ∈ evR, ∃ k, e = TickEvent.recorderTick k) ∧
      (∀ e ∈ evP, ∃ k, e = TickEvent.playerTick k) := by
  unfold RecordingManager.on_tick
  split
  · exact ⟨(runRecorderPhase env mgr.recorders).1, [], by simp,
      recorder_phase_events env mgr.recorders, by simp⟩
  · exact ⟨(runRecorderPhase env mgr.recorders).1,
      (runPlayerPhase env mgr.players).1, rfl,
      recorder_phase_events env mgr.recorders,
      player_phase_events env mgr.players⟩

end ReplayBot
